import Mathlib

/-!
Verification development for the client-side runtime of the TradingBotLive-v2
trading-bot dashboard (files `static/js/main.js`, class `TradingDashboard`,
and the switcher file, class `DashboardSwitcher`).

The JavaScript is shallowly embedded as pure Lean functions over explicit
state records.  JavaScript numbers that the claims exercise are integer
valued, so they are modelled as `Int` (the `toFixed(2)` formatting of an
integer value n is the string `toString n ++ ".00"`).  DOM elements are
modelled by the pieces of state the code reads or writes (text content,
class lists, attribute values); whether a queried element exists is part of
a fixed environment record, since the markup does not change during the
scenarios under study.  `localStorage` is a string-keyed association list.
Timers (`setInterval` / `setTimeout`) are modelled as explicit pending-task
lists with fresh identifiers.  Exceptions thrown by the JavaScript
(`JSON.parse` on malformed input, property access on `null`/`undefined`,
calling `toFixed`/`toLowerCase` on a value that lacks it) are modelled with
`Except`.
-/

namespace TradingBot

/-- Runtime errors a JavaScript expression can throw. -/
inductive JsError where
  | syntaxError
  | typeError
deriving DecidableEq, Repr

/-- JavaScript values as delivered by `JSON.parse`, extended with
`undefined` for the result of reading an absent property. -/
inductive Json where
  | null
  | bool (b : Bool)
  | num (n : Int)
  | str (s : String)
  | arr (elems : List Json)
  | obj (fields : List (String × Json))
  | undefined
deriving Repr

/-- Property read `v[k]`: throws on `null`/`undefined`, yields the field of
an object (or `undefined` when absent), and `undefined` on other values
(built-in properties such as string length are not needed here and not
modelled). -/
def Json.getField : Json → String → Except JsError Json
  | .null, _ => .error .typeError
  | .undefined, _ => .error .typeError
  | .obj fields, k =>
      .ok (match fields.lookup k with
           | some v => v
           | none => .undefined)
  | _, _ => .ok .undefined

/-- `n.toFixed(2)` for an integer-valued JavaScript number. -/
def jsToFixed2 (n : Int) : String := toString n ++ ".00"

/-- The `$...` money strings written into the price and balance cells. -/
def jsMoney (n : Int) : String := "$" ++ jsToFixed2 n

/-- Which of the DOM elements queried by `TradingDashboard` exist in the
page markup (fixed during a session). -/
structure MainEnv where
  priceElem : Bool
  balanceElem : Bool
  statusElem : Bool
  tradeTableExists : Bool
deriving DecidableEq, Repr

/-- One rendered row of the trade-history table, as built by
`createTradeRow` from the fields of an inbound trade object. -/
structure TradeRow where
  symbol : Json
  side : Json
  priceFixed : String
  quantity : Json
  status : Json
  timestamp : Json
deriving Repr

/-- The DOM state `TradingDashboard` reads and writes: the scalar metric
cells and the trade-history table body rows (newest first). -/
structure MainState where
  priceCell : Option String
  balanceCell : Option String
  statusText : Option String
  statusClass : Option String
  tradeRows : List TradeRow
deriving Repr

/-- Fresh page state: no cell text set, empty trade table. -/
def mainState0 : MainState :=
  { priceCell := none, balanceCell := none, statusText := none
    statusClass := none, tradeRows := [] }

namespace TD

/-- `createTradeRow(trade)` of main.js: reads the six fields of the trade
object and interpolates them into a table row.  Throws when `trade` is
`null`/`undefined` (property access) or when `trade.price` is not a number
(`price.toFixed(2)`). -/
def createTradeRow (trade : Json) : Except JsError TradeRow := do
  let sym ← trade.getField "symbol"
  let side ← trade.getField "type"
  let price ← trade.getField "price"
  match price with
  | .num n =>
      let qty ← trade.getField "quantity"
      let st ← trade.getField "status"
      let ts ← trade.getField "timestamp"
      pure { symbol := sym, side := side, priceFixed := jsToFixed2 n
             quantity := qty, status := st, timestamp := ts }
  | _ => .error .typeError

/-- The Recent Activity Window step of `updateTradeHistory` (main.js lines
374..381): insert the new row before the first child, then, if the table
now has more than 10 rows, remove the last one. -/
def insertTradeRow {α : Type} (rows : List α) (r : α) : List α :=
  let rows2 := r :: rows
  if rows2.length > 10 then rows2.dropLast else rows2

/-- `updateTradeHistory(trades)` of main.js.  The guard
`tradeTable && trades.length > 0` evaluates `trades.length`, which throws
for `null`/`undefined`, is a positive number only for a non-empty array
(string payloads do not occur here and are not distinguished), and is
`undefined` — hence not `> 0` — for every other value, so only a non-empty
array inserts its first element. -/
def updateTradeHistory (env : MainEnv) (trades : Json) (s : MainState) :
    Except JsError MainState :=
  if env.tradeTableExists then
    match trades with
    | .null => .error .typeError
    | .undefined => .error .typeError
    | .arr l =>
        match l with
        | [] => .ok s
        | t :: _ => do
            let row ← createTradeRow t
            pure { s with tradeRows := insertTradeRow s.tradeRows row }
    | _ => .ok s
  else .ok s

/-- `updatePriceDisplay(price)` of main.js: when the `.current-price`
element exists, writes `` `$${price.toFixed(2)}` ``; `toFixed` throws
unless `price` is a number. -/
def updatePriceDisplay (env : MainEnv) (price : Json) (s : MainState) :
    Except JsError MainState :=
  if env.priceElem then
    match price with
    | .num n => .ok { s with priceCell := some (jsMoney n) }
    | _ => .error .typeError
  else .ok s

/-- `updateBalanceDisplay(balance)` of main.js. -/
def updateBalanceDisplay (env : MainEnv) (balance : Json) (s : MainState) :
    Except JsError MainState :=
  if env.balanceElem then
    match balance with
    | .num n => .ok { s with balanceCell := some (jsMoney n) }
    | _ => .error .typeError
  else .ok s

/-- `updateBotStatus(status)` of main.js: writes the status text and the
class string `bot-status status-${status.toLowerCase()}`; `toLowerCase`
throws unless `status` is a string. -/
def updateBotStatus (env : MainEnv) (status : Json) (s : MainState) :
    Except JsError MainState :=
  if env.statusElem then
    match status with
    | .str t =>
        .ok { s with statusText := some t
                     statusClass := some ("bot-status status-" ++ t.toLower) }
    | _ => .error .typeError
  else .ok s

/-- `handleWebSocketMessage(data)` of main.js: dispatch on the string
`data.type`; the four known discriminators route to the display updaters,
anything else falls through the `switch` without effect. -/
def handleWebSocketMessage (env : MainEnv) (data : Json) (s : MainState) :
    Except JsError MainState := do
  let t ← data.getField "type"
  match t with
  | .str "price_update" => do
      let p ← data.getField "price"
      updatePriceDisplay env p s
  | .str "trade_update" => do
      let tr ← data.getField "trade"
      updateTradeHistory env tr s
  | .str "balance_update" => do
      let b ← data.getField "balance"
      updateBalanceDisplay env b s
  | .str "status_update" => do
      let st ← data.getField "status"
      updateBotStatus env st s
  | _ => pure s

/-- An inbound frame on the live channel: either text that does not parse
as JSON, or text whose parse tree is the given value. -/
inductive WireMsg where
  | malformed (raw : String)
  | wellFormed (j : Json)
deriving Repr

/-- `JSON.parse(event.data)`: throws a SyntaxError on malformed input. -/
def jsonParse : WireMsg → Except JsError Json
  | .malformed _ => .error .syntaxError
  | .wellFormed j => .ok j

/-- The `ws.onmessage` handler of main.js (lines 307..310):
`const data = JSON.parse(event.data); this.handleWebSocketMessage(data);`
with no surrounding try/catch inside the handler. -/
def wsOnMessage (env : MainEnv) (msg : WireMsg) (s : MainState) :
    Except JsError MainState := do
  let data ← jsonParse msg
  handleWebSocketMessage env data s

/-- `updateDashboardData()` of main.js (poll path): reads the snapshot
fields and passes each, unconditionally, to the corresponding display
updater. -/
def updateDashboardData (env : MainEnv) (data : Json) (s : MainState) :
    Except JsError MainState := do
  let p ← data.getField "current_price"
  let s ← updatePriceDisplay env p s
  let b ← data.getField "balance"
  let s ← updateBalanceDisplay env b s
  let tr ← data.getField "recent_trades"
  let s ← updateTradeHistory env tr s
  let st ← data.getField "bot_status"
  updateBotStatus env st s

end TD

/-- The notification subsystem of main.js (`showNotification`): the
container children (active notifications, by identifier, in order
appended), the pending `setTimeout` auto-removal tasks as
(notification id, absolute fire time) pairs, a clock, a fresh-identifier
counter, and an instrumentation log of every `notification.remove()`
call that was executed. -/
structure NotifSys where
  now : Nat
  nextId : Nat
  containerExists : Bool
  active : List Nat
  timeouts : List (Nat × Nat)
  removalAttempts : List Nat
deriving DecidableEq, Repr

/-- Fresh notification system (after `setupNotifications` the container
exists). -/
def notif0 : NotifSys :=
  { now := 0, nextId := 0, containerExists := true
    active := [], timeouts := [], removalAttempts := [] }

namespace TD

/-- `notification.remove()`: detaches the element when attached and is a
silent no-op when already detached; every call is logged. -/
def removeNotif (id : Nat) (s : NotifSys) : NotifSys :=
  { s with active := s.active.erase id
           removalAttempts := s.removalAttempts ++ [id] }

/-- `showNotification(message, type, duration)` of main.js: returns early
when the container is missing; otherwise appends the notification and
schedules `notification.remove()` at `now + duration`.  No handle to the
timeout is kept. -/
def showNotification (duration : Nat) (s : NotifSys) : NotifSys :=
  if s.containerExists then
    { s with active := s.active ++ [s.nextId]
             timeouts := s.timeouts ++ [(s.nextId, s.now + duration)]
             nextId := s.nextId + 1 }
  else s

/-- The close-button click listener of `showNotification`: calls
`notification.remove()` immediately, without touching the pending
timeout. -/
def clickClose (id : Nat) (s : NotifSys) : NotifSys :=
  removeNotif id s

/-- Advance the clock to time `t`, firing every pending timeout whose fire
time has been reached; each fired task runs `notification.remove()`. -/
def elapseTo (t : Nat) (s : NotifSys) : NotifSys :=
  let due := s.timeouts.filter (fun p => p.2 ≤ t)
  let rest := s.timeouts.filter (fun p => ¬ p.2 ≤ t)
  let s2 := due.foldl (fun acc p => removeNotif p.1 acc)
    { s with timeouts := rest }
  { s2 with now := t }

end TD

/-! ### Decimal strings

`localStorage.setItem` stringifies the number it is given and
`parseInt` reads it back; both are modelled executably below so the
round-trip can be proved. -/

/-- The decimal digit character for `d < 10`. -/
def digitChar (d : Nat) : Char := Char.ofNat (48 + d)

/-- The decimal digits of `n`, most significant first (as produced by the
JavaScript number-to-string coercion for an integer value). -/
def natToChars (n : Nat) : List Char :=
  if h : n < 10 then [digitChar n]
  else
    have : n / 10 < n := Nat.div_lt_self (by omega) (by omega)
    natToChars (n / 10) ++ [digitChar (n % 10)]
termination_by n

/-- The numeric value of a decimal digit character, if it is one. -/
def charDigit? (c : Char) : Option Nat :=
  if 48 ≤ c.toNat ∧ c.toNat ≤ 57 then some (c.toNat - 48) else none

/-- Accumulator pass over decimal digit characters. -/
def parseDigitsAux (acc : Nat) : List Char → Option Nat
  | [] => some acc
  | c :: cs =>
      match charDigit? c with
      | some d => parseDigitsAux (acc * 10 + d) cs
      | none => none

/-- Parse a non-empty all-digit character list. -/
def parseNatChars (cs : List Char) : Option Nat :=
  if cs.isEmpty then none else parseDigitsAux 0 cs

/-- The string the JavaScript runtime stores for an integer-valued
number (`String(n)`). -/
def jsNumToString : Int → String
  | .ofNat n => String.mk (natToChars n)
  | .negSucc n => String.mk ('-' :: natToChars (n + 1))

/-- `parseInt` on a canonical decimal string: optional minus sign followed
by decimal digits. -/
def jsParseIntOpt (s : String) : Option Int :=
  match s.data with
  | [] => none
  | c :: cs =>
      if c = '-' then (parseNatChars cs).map (fun n => -(n : Int))
      else (parseNatChars (c :: cs)).map (fun n => (n : Int))

/-- `parseInt` as used on stored refresh rates.  A non-numeric string
yields NaN in JavaScript; that case is unreachable from values written by
the code (which are always canonical decimal strings) and is mapped to
0 here. -/
def jsParseInt (s : String) : Int := (jsParseIntOpt s).getD 0

/-! ### The DashboardSwitcher model (switcher source file) -/

/-- The five CSS custom properties `applyTheme` pushes. -/
structure CssVars where
  primaryColor : String
  secondaryColor : String
  darkColor : String
  lightColor : String
  borderColor : String
deriving DecidableEq, Repr

/-- The variable set `applyTheme` installs for the dark theme. -/
def darkVars : CssVars :=
  { primaryColor := "#3b82f6", secondaryColor := "#94a3b8"
    darkColor := "#f8fafc", lightColor := "#1e293b", borderColor := "#334155" }

/-- The variable set `applyTheme` installs for every non-dark theme. -/
def lightVars : CssVars :=
  { primaryColor := "#2563eb", secondaryColor := "#64748b"
    darkColor := "#1e293b", lightColor := "#f8fafc", borderColor := "#e2e8f0" }

/-- The `/api/dashboard-data` snapshot as read by the switcher
(`data.current_price`, `data.balance`, `data.bot_status`; absent fields
are `none`). -/
structure DashData where
  current_price : Option Int
  balance : Option Int
  bot_status : Option String
deriving DecidableEq, Repr

/-- A trade record as rendered by the switcher trade table. -/
structure DSTrade where
  symbol : String
  side : String
  price : Int
  quantity : Int
  status : String
  timestamp : String
deriving DecidableEq, Repr

/-- The fixed page environment of `DashboardSwitcher`: which queried
elements exist (by their data-attribute values), the system
color-scheme preference, and the responses of the fetch endpoints. -/
structure DSEnv where
  prefersDark : Bool
  containers : List String
  viewButtons : List String
  themeButtons : List String
  layoutButtons : List String
  refreshButtons : List String
  dashboardContainerExists : Bool
  priceElem : Bool
  balanceElem : Bool
  statusElem : Bool
  tradeTableExists : Bool
  settingsInputs : List String
  dashData : DashData
  tradeHistResp : List DSTrade
  settingsResp : List (String × String)
deriving DecidableEq, Repr

/-- The mutable state of a `DashboardSwitcher` instance together with the
DOM and storage state it manipulates.  `activeTimers` is the list of live
`setInterval` timers (identifier, period in seconds); `mediaListeners`
counts the registered `prefers-color-scheme` change listeners;
`themeApplications` is an instrumentation counter of `applyTheme`
invocations; `fetchLog` records every network request issued. -/
structure DS where
  currentView : String
  currentTheme : String
  bodyTheme : Option String
  cssVars : Option CssVars
  themeSwitcherActive : Option String
  viewSwitcherActive : Option String
  layoutSwitcherActive : Option String
  refreshSwitcherActive : Option String
  activeContainers : List String
  layoutClasses : List String
  storage : List (String × String)
  activeTimers : List (Nat × Int)
  refreshIntervalId : Option Nat
  nextTimerId : Nat
  mediaListeners : Nat
  themeApplications : Nat
  fetchLog : List String
  priceCell : Option String
  balanceCell : Option String
  statusText : Option String
  statusClass : Option String
  tableRows : List DSTrade
  settingsForm : List (String × String)
deriving DecidableEq, Repr

/-- `localStorage.setItem`. -/
def storageSet (st : List (String × String)) (k v : String) :
    List (String × String) :=
  match st with
  | [] => [(k, v)]
  | kv :: rest => if kv.1 = k then (k, v) :: rest else kv :: storageSet rest k v

/-- `localStorage.getItem`. -/
def storageGet (st : List (String × String)) (k : String) : Option String :=
  st.lookup k

/-- `classList.add`: appends the class unless already present. -/
def classListAdd (cs : List String) (c : String) : List String :=
  if c ∈ cs then cs else cs ++ [c]

/-- A fresh `DashboardSwitcher` before `loadSavedSettings` runs: the
constructor fields (`currentView`, `currentTheme`) at their literal
defaults, no theme applied yet, no timer, no listener, the page markup not
yet mutated.  Browser interval identifiers are positive, so numbering
starts at 1. -/
def ds0 : DS :=
  { currentView := "dashboard", currentTheme := "light"
    bodyTheme := none, cssVars := none
    themeSwitcherActive := none, viewSwitcherActive := none
    layoutSwitcherActive := none, refreshSwitcherActive := none
    activeContainers := [], layoutClasses := []
    storage := [], activeTimers := [], refreshIntervalId := none
    nextTimerId := 1, mediaListeners := 0, themeApplications := 0
    fetchLog := [], priceCell := none, balanceCell := none
    statusText := none, statusClass := none
    tableRows := [], settingsForm := [] }

namespace DS

/-- `applyTheme(theme)`: sets the body `data-theme` attribute and installs
the dark variable set when the theme is the string dark, the light set
otherwise (so the literal string auto gets the light set). -/
def applyTheme (theme : String) (s : DS) : DS :=
  { s with bodyTheme := some theme
           cssVars := some (if theme = "dark" then darkVars else lightVars)
           themeApplications := s.themeApplications + 1 }

/-- The body of `switchTheme(theme)` after its auto check: record the
theme, apply it, persist it literally, and move the active marker among
the theme switcher buttons. -/
def switchThemeConcrete (e : DSEnv) (theme : String) (s : DS) : DS :=
  let s := { s with currentTheme := theme }
  let s := applyTheme theme s
  let s := { s with storage := storageSet s.storage "dashboard-theme" theme }
  { s with themeSwitcherActive :=
      if theme ∈ e.themeButtons then some theme else none }

/-- `enableAutoTheme()`: resolve the system preference once, switch to the
resolved concrete theme (`this.switchTheme(theme)` with a non-auto
argument), overwrite the persisted preference with the literal string
auto, and register one more `prefers-color-scheme` change listener.
No listener is ever removed anywhere in the source. -/
def enableAutoTheme (e : DSEnv) (s : DS) : DS :=
  let theme := if e.prefersDark then "dark" else "light"
  let s := switchThemeConcrete e theme s
  let s := { s with storage := storageSet s.storage "dashboard-theme" "auto" }
  { s with mediaListeners := s.mediaListeners + 1 }

/-- `switchTheme(theme)`. -/
def switchTheme (e : DSEnv) (theme : String) (s : DS) : DS :=
  if theme = "auto" then enableAutoTheme e s
  else switchThemeConcrete e theme s

/-- Run `applyTheme` the given number of times (once per registered
listener). -/
def applyThemeTimes (theme : String) : Nat → DS → DS
  | 0, s => s
  | n + 1, s => applyThemeTimes theme n (applyTheme theme s)

/-- A `prefers-color-scheme` change event with the given `matches` flag:
every registered listener runs
`this.applyTheme(e.matches ? dark : light)`. -/
def systemPrefChange (m : Bool) (s : DS) : DS :=
  applyThemeTimes (if m then "dark" else "light") s.mediaListeners s

/-- `updateDashboardData(data)` of the switcher: each snapshot field is
applied only when truthy (for a number: present and nonzero; for the
status string: present and non-empty) and only when its target element
exists. -/
def updateDashboardData (e : DSEnv) (data : DashData) (s : DS) : DS :=
  let s := match data.current_price with
    | some p =>
        if p ≠ 0 then
          if e.priceElem then { s with priceCell := some (jsMoney p) } else s
        else s
    | none => s
  let s := match data.balance with
    | some b =>
        if b ≠ 0 then
          if e.balanceElem then { s with balanceCell := some (jsMoney b) } else s
        else s
    | none => s
  match data.bot_status with
  | some st =>
      if st ≠ "" then
        if e.statusElem then
          { s with statusText := some st
                   statusClass := some ("bot-status status-" ++ st.toLower) }
        else s
      else s
  | none => s

/-- `loadDashboardData()`: fetch the snapshot and apply it. -/
def loadDashboardData (e : DSEnv) (s : DS) : DS :=
  updateDashboardData e e.dashData
    { s with fetchLog := s.fetchLog ++ ["/api/dashboard-data"] }

/-- `setupDashboardCharts()`: chart construction touches no modelled
state. -/
def setupDashboardCharts (s : DS) : DS := s

/-- `updateTradeHistory(trades)` of the switcher: clears the table body
and appends one row per trade, in order. -/
def updateTradeHistory (e : DSEnv) (trades : List DSTrade) (s : DS) : DS :=
  if e.tradeTableExists then { s with tableRows := trades } else s

/-- `loadTradeHistory()`. -/
def loadTradeHistory (e : DSEnv) (s : DS) : DS :=
  updateTradeHistory e e.tradeHistResp
    { s with fetchLog := s.fetchLog ++ ["/api/trade-history"] }

/-- `setupTradeFilters()`: event wiring only. -/
def setupTradeFilters (s : DS) : DS := s

/-- `updateAnalyticsData(analytics)`: both branches only log to the
console. -/
def updateAnalyticsData (s : DS) : DS := s

/-- `loadAnalyticsData()`. -/
def loadAnalyticsData (s : DS) : DS :=
  updateAnalyticsData { s with fetchLog := s.fetchLog ++ ["/api/analytics-data"] }

/-- `setupAnalyticsCharts()`: chart construction only. -/
def setupAnalyticsCharts (s : DS) : DS := s

/-- `updateSettingsForm(settings)`: writes each setting value into the
form input of that name, when such an input exists. -/
def updateSettingsForm (e : DSEnv) (settings : List (String × String))
    (s : DS) : DS :=
  settings.foldl (fun acc kv =>
    if kv.1 ∈ e.settingsInputs then
      { acc with settingsForm := storageSet acc.settingsForm kv.1 kv.2 }
    else acc) s

/-- `loadSettings()`. -/
def loadSettings (e : DSEnv) (s : DS) : DS :=
  updateSettingsForm e e.settingsResp
    { s with fetchLog := s.fetchLog ++ ["/api/settings"] }

/-- `initializeDashboard()` of the source. -/
def initDashboard (e : DSEnv) (s : DS) : DS :=
  setupDashboardCharts (loadDashboardData e s)

/-- `initializeTradesView()` of the source. -/
def initTradesView (e : DSEnv) (s : DS) : DS :=
  setupTradeFilters (loadTradeHistory e s)

/-- `initializeAnalyticsView()` of the source. -/
def initAnalyticsView (_e : DSEnv) (s : DS) : DS :=
  setupAnalyticsCharts (loadAnalyticsData s)

/-- `initializeSettingsView()` of the source. -/
def initSettingsView (e : DSEnv) (s : DS) : DS :=
  loadSettings e s

/-- `initializeView(view)` of the source: dispatch on the four known view
names, no default case. -/
def initView (e : DSEnv) (view : String) (s : DS) : DS :=
  match view with
  | "dashboard" => initDashboard e s
  | "trades" => initTradesView e s
  | "analytics" => initAnalyticsView e s
  | "settings" => initSettingsView e s
  | _ => s

/-- The network requests `initializeView(view)` issues (theorem-side
summary of the fetch calls above). -/
def viewRequests : String → List String
  | "dashboard" => ["/api/dashboard-data"]
  | "trades" => ["/api/trade-history"]
  | "analytics" => ["/api/analytics-data"]
  | "settings" => ["/api/settings"]
  | _ => []

/-- `switchView(view)`: remove the active class from every view container,
add it to the requested container when that exists, move the active marker
among the view switcher buttons, record and persist the view, and run the
view initialization. -/
def switchView (e : DSEnv) (view : String) (s : DS) : DS :=
  let s := { s with activeContainers := [] }
  let s := if view ∈ e.containers
    then { s with activeContainers := classListAdd s.activeContainers view }
    else s
  let s := { s with viewSwitcherActive :=
      if view ∈ e.viewButtons then some view else none }
  let s := { s with currentView := view }
  let s := { s with storage := storageSet s.storage "dashboard-view" view }
  initView e view s

/-- The three layout classes `switchLayout` removes before adding the new
one. -/
def layoutKnown : List String := ["layout-grid", "layout-list", "layout-compact"]

/-- The class-list surgery shared by `switchLayout` and `applyLayout`:
remove the three known layout classes, then add `layout-` followed by the
requested name. -/
def applyLayoutClasses (cs : List String) (layout : String) : List String :=
  classListAdd (cs.filter (fun c => c ∉ layoutKnown)) ("layout-" ++ layout)

/-- `switchLayout(layout)`. -/
def switchLayout (e : DSEnv) (layout : String) (s : DS) : DS :=
  let s := if e.dashboardContainerExists
    then { s with layoutClasses := applyLayoutClasses s.layoutClasses layout }
    else s
  let s := { s with storage := storageSet s.storage "dashboard-layout" layout }
  { s with layoutSwitcherActive :=
      if layout ∈ e.layoutButtons then some layout else none }

/-- `applyLayout(layout)` (the reload path: class surgery only, no
persistence, no button update). -/
def applyLayout (e : DSEnv) (layout : String) (s : DS) : DS :=
  if e.dashboardContainerExists
  then { s with layoutClasses := applyLayoutClasses s.layoutClasses layout }
  else s

/-- The opening block of `setRefreshRate`: clear the interval named by
`this.refreshInterval` when that field is set (the field itself keeps the
stale identifier). -/
def clearRefreshInterval (s : DS) : DS :=
  match s.refreshIntervalId with
  | some i => { s with activeTimers := s.activeTimers.filter (fun t => t.1 ≠ i) }
  | none => s

/-- `setRefreshRate(seconds)`: clear any interval named by
`this.refreshInterval`, arm a fresh interval when the argument is
positive, persist the stringified argument, and move the active marker
among the refresh buttons. -/
def setRefreshRate (e : DSEnv) (seconds : Int) (s : DS) : DS :=
  let s := clearRefreshInterval s
  let s := if seconds > 0 then
      { s with activeTimers := s.activeTimers ++ [(s.nextTimerId, seconds)],
               refreshIntervalId := some s.nextTimerId,
               nextTimerId := s.nextTimerId + 1 }
    else s
  let s :=
    { s with storage := storageSet s.storage "dashboard-refresh-rate" (jsNumToString seconds) }
  { s with refreshSwitcherActive :=
      if jsNumToString seconds ∈ e.refreshButtons
      then some (jsNumToString seconds) else none }

/-- `loadSavedSettings()`: each stored value is guarded by JavaScript
truthiness (`if (savedTheme)` and so on), so an absent key or a stored
empty string is skipped; a truthy value is reapplied — the theme by
`applyTheme` on the stored string (note: not by `switchTheme`), the view
by `switchView`, the layout by `applyLayout`, the refresh rate by
`setRefreshRate(parseInt(stored))`. -/
def loadSavedSettings (e : DSEnv) (s : DS) : DS :=
  let s := match storageGet s.storage "dashboard-theme" with
    | some t => if t = "" then s else applyTheme t { s with currentTheme := t }
    | none => s
  let s := match storageGet s.storage "dashboard-view" with
    | some v => if v = "" then s else switchView e v { s with currentView := v }
    | none => s
  let s := match storageGet s.storage "dashboard-layout" with
    | some l => if l = "" then s else applyLayout e l s
    | none => s
  match storageGet s.storage "dashboard-refresh-rate" with
  | some r => if r = "" then s else setRefreshRate e (jsParseInt r) s
  | none => s

end DS

/-- The public switcher operations, for statements quantifying over
arbitrary call sequences. -/
inductive DSOp where
  | themeSwitch (t : String)
  | autoTheme
  | viewSwitch (v : String)
  | layoutSwitch (l : String)
  | refreshSet (n : Int)
  | sysChange (m : Bool)
deriving DecidableEq, Repr

/-- Interpret one operation. -/
def DSOp.apply (e : DSEnv) (s : DS) : DSOp → DS
  | .themeSwitch t => DS.switchTheme e t s
  | .autoTheme => DS.enableAutoTheme e s
  | .viewSwitch v => DS.switchView e v s
  | .layoutSwitch l => DS.switchLayout e l s
  | .refreshSet n => DS.setRefreshRate e n s
  | .sysChange m => DS.systemPrefChange m s

/-- Interpret a call sequence, left to right. -/
def runOps (e : DSEnv) (ops : List DSOp) (s : DS) : DS :=
  ops.foldl (DSOp.apply e) s

/-- How many operations of the sequence activate the auto theme (the
paths that reach `enableAutoTheme`). -/
def autoActivations : List DSOp → Nat
  | [] => 0
  | op :: rest =>
      (match op with
       | .themeSwitch t => if t = "auto" then 1 else 0
       | .autoTheme => 1
       | _ => 0) + autoActivations rest

/-- The applied state the round-trip claim compares: theme tokens, active
view containers, recorded view and theme, layout classes, armed timers,
and the system-preference subscription count. -/
structure Applied where
  bodyTheme : Option String
  cssVars : Option CssVars
  currentTheme : String
  activeContainers : List String
  currentView : String
  layoutClasses : List String
  activeTimers : List (Nat × Int)
  mediaListeners : Nat
deriving DecidableEq, Repr

/-- Project the applied state out of a switcher state. -/
def DS.applied (s : DS) : Applied :=
  { bodyTheme := s.bodyTheme, cssVars := s.cssVars
    currentTheme := s.currentTheme
    activeContainers := s.activeContainers, currentView := s.currentView
    layoutClasses := s.layoutClasses, activeTimers := s.activeTimers
    mediaListeners := s.mediaListeners }

/-- A concrete page environment for witnesses and counterexamples: all
queried elements exist, the four view containers are mounted, the system
prefers dark. -/
def env0 : DSEnv :=
  { prefersDark := true
    containers := ["dashboard", "trades", "analytics", "settings"]
    viewButtons := ["dashboard", "trades", "analytics", "settings"]
    themeButtons := ["light", "dark", "auto"]
    layoutButtons := ["grid", "list", "compact"]
    refreshButtons := ["0", "5", "30"]
    dashboardContainerExists := true
    priceElem := true, balanceElem := true, statusElem := true
    tradeTableExists := true
    settingsInputs := ["api_key"]
    dashData := { current_price := some 100, balance := some 250
                  bot_status := some "Running" }
    tradeHistResp := []
    settingsResp := [] }

/-- A concrete page environment for the TradingDashboard class: every
queried element exists. -/
def menv0 : MainEnv :=
  { priceElem := true, balanceElem := true, statusElem := true
    tradeTableExists := true }

/-- The refresh-rate call sequences of claim C3: fold `setRefreshRate`
over the arguments, starting from a fresh switcher. -/
def runRefresh (e : DSEnv) (args : List Int) : DS :=
  args.foldl (fun s n => DS.setRefreshRate e n s) ds0

/-- Timer sanity: either no interval is live, or exactly one is and it is
the one named by `this.refreshInterval`. -/
def goodTimers (s : DS) : Prop :=
  s.activeTimers = [] ∨
  ∃ i p, s.activeTimers = [(i, p)] ∧ s.refreshIntervalId = some i

/-- Everything of a switcher state except the view-data cells
(`priceCell`, `balanceCell`, `statusText`, `statusClass`, `tableRows`,
`settingsForm`) and the request log — the part `initializeView` never
touches. -/
structure CoreSt where
  currentView : String
  currentTheme : String
  bodyTheme : Option String
  cssVars : Option CssVars
  themeSwitcherActive : Option String
  viewSwitcherActive : Option String
  layoutSwitcherActive : Option String
  refreshSwitcherActive : Option String
  activeContainers : List String
  layoutClasses : List String
  storage : List (String × String)
  activeTimers : List (Nat × Int)
  refreshIntervalId : Option Nat
  nextTimerId : Nat
  mediaListeners : Nat
  themeApplications : Nat
deriving DecidableEq, Repr

/-- Project the core part out of a switcher state. -/
def DS.core (s : DS) : CoreSt :=
  { currentView := s.currentView, currentTheme := s.currentTheme
    bodyTheme := s.bodyTheme, cssVars := s.cssVars
    themeSwitcherActive := s.themeSwitcherActive
    viewSwitcherActive := s.viewSwitcherActive
    layoutSwitcherActive := s.layoutSwitcherActive
    refreshSwitcherActive := s.refreshSwitcherActive
    activeContainers := s.activeContainers
    layoutClasses := s.layoutClasses
    storage := s.storage, activeTimers := s.activeTimers
    refreshIntervalId := s.refreshIntervalId, nextTimerId := s.nextTimerId
    mediaListeners := s.mediaListeners
    themeApplications := s.themeApplications }

/-- The applied-state projection factors through the core projection. -/
def coreApplied (c : CoreSt) : Applied :=
  { bodyTheme := c.bodyTheme, cssVars := c.cssVars
    currentTheme := c.currentTheme
    activeContainers := c.activeContainers, currentView := c.currentView
    layoutClasses := c.layoutClasses, activeTimers := c.activeTimers
    mediaListeners := c.mediaListeners }


/-! The per-cell value functions of `updateDashboardData` of the switcher
and the settings-form fold, named for the idempotence proofs. -/

def formApply (e : DSEnv) (l : List (String × String))
    (f : List (String × String)) : List (String × String) :=
  l.foldl (fun acc kv =>
    if kv.1 ∈ e.settingsInputs then storageSet acc kv.1 kv.2 else acc) f

def priceCellVal (e : DSEnv) (d : DashData) (c : Option String) : Option String :=
  match d.current_price with
  | some p => if p ≠ 0 then (if e.priceElem then some (jsMoney p) else c) else c
  | none => c

def balanceCellVal (e : DSEnv) (d : DashData) (c : Option String) : Option String :=
  match d.balance with
  | some b => if b ≠ 0 then (if e.balanceElem then some (jsMoney b) else c) else c
  | none => c

def statusTextVal (e : DSEnv) (d : DashData) (c : Option String) : Option String :=
  match d.bot_status with
  | some st => if st ≠ "" then (if e.statusElem then some st else c) else c
  | none => c

def statusClassVal (e : DSEnv) (d : DashData) (c : Option String) : Option String :=
  match d.bot_status with
  | some st =>
      if st ≠ "" then
        (if e.statusElem then some ("bot-status status-" ++ st.toLower) else c)
      else c
  | none => c

/-! ### Decimal string round-trip -/

lemma charDigit?_digitChar (d : Nat) (h : d < 10) :
    charDigit? (digitChar d) = some d := by
  interval_cases d <;> decide

lemma natToChars_head_digit (n : Nat) :
    ∃ d cs, natToChars n = digitChar d :: cs ∧ d < 10 := by
  induction n using Nat.strong_induction_on with
  | _ n ih =>
    by_cases h : n < 10
    · exact ⟨n, [], by rw [natToChars, dif_pos h], h⟩
    · have hlt : n / 10 < n := Nat.div_lt_self (by omega) (by omega)
      obtain ⟨d, cs, hEq, hd⟩ := ih _ hlt
      exact ⟨d, cs ++ [digitChar (n % 10)], by rw [natToChars, dif_neg h, hEq]; rfl, hd⟩

lemma parseDigitsAux_append (xs ys : List Char) :
    ∀ acc, parseDigitsAux acc (xs ++ ys)
      = (parseDigitsAux acc xs).bind (fun a => parseDigitsAux a ys) := by
  induction xs with
  | nil => intro acc; rfl
  | cons c cs ih =>
      intro acc
      simp only [List.cons_append, parseDigitsAux]
      cases hc : charDigit? c with
      | some d => exact ih _
      | none => rfl

lemma parseDigitsAux_natToChars (n : Nat) :
    ∀ acc, parseDigitsAux acc (natToChars n)
      = some (acc * 10 ^ (natToChars n).length + n) := by
  induction n using Nat.strong_induction_on with
  | _ n ih =>
    intro acc
    by_cases h : n < 10
    · rw [natToChars, dif_pos h]
      simp [parseDigitsAux, charDigit?_digitChar n h]
    · have hlt : n / 10 < n := Nat.div_lt_self (by omega) (by omega)
      rw [natToChars, dif_neg h]
      rw [parseDigitsAux_append]
      rw [ih _ hlt acc]
      simp only [Option.some_bind]
      have hm : n % 10 < 10 := Nat.mod_lt _ (by omega)
      simp only [parseDigitsAux, charDigit?_digitChar _ hm]
      rw [List.length_append, List.length_singleton]
      congr 1
      calc (acc * 10 ^ (natToChars (n / 10)).length + n / 10) * 10 + n % 10
          = acc * (10 ^ (natToChars (n / 10)).length * 10)
              + (n / 10 * 10 + n % 10) := by ring
        _ = acc * 10 ^ ((natToChars (n / 10)).length + 1) + n := by
              rw [Nat.div_add_mod' n 10, ← pow_succ]

lemma parseNatChars_natToChars (n : Nat) :
    parseNatChars (natToChars n) = some n := by
  obtain ⟨d, cs, hEq, hd⟩ := natToChars_head_digit n
  unfold parseNatChars
  rw [hEq]
  simp only [List.isEmpty_cons, Bool.false_eq_true, if_false]
  rw [← hEq]
  simpa using parseDigitsAux_natToChars n 0

lemma digitChar_ne_minus (d : Nat) (h : d < 10) : digitChar d ≠ '-' := by
  interval_cases d <;> decide

lemma jsParseIntOpt_mk_cons (c : Char) (cs : List Char) :
    jsParseIntOpt (String.mk (c :: cs))
      = if c = '-' then (parseNatChars cs).map (fun n => -(n : Int))
        else (parseNatChars (c :: cs)).map (fun n => (n : Int)) := rfl

/-- `parseInt(String(i)) = i`: reading back a stored refresh rate yields
the original integer. -/
lemma jsParseInt_jsNumToString (i : Int) :
    jsParseInt (jsNumToString i) = i := by
  cases i with
  | ofNat n =>
      obtain ⟨d, cs, hEq, hd⟩ := natToChars_head_digit n
      show (jsParseIntOpt (String.mk (natToChars n))).getD 0 = Int.ofNat n
      rw [hEq, jsParseIntOpt_mk_cons, if_neg (digitChar_ne_minus d hd), ← hEq,
          parseNatChars_natToChars]
      rfl
  | negSucc n =>
      show (jsParseIntOpt (String.mk ('-' :: natToChars (n + 1)))).getD 0
        = Int.negSucc n
      rw [jsParseIntOpt_mk_cons, if_pos rfl, parseNatChars_natToChars]
      simp [Int.negSucc_eq]

/-- A stored refresh rate is never the empty string, so the truthiness
guard of `loadSavedSettings` always passes for it. -/
lemma jsNumToString_ne_empty (i : Int) : jsNumToString i ≠ "" := by
  cases i with
  | ofNat n =>
      obtain ⟨d, cs, hEq, _⟩ := natToChars_head_digit n
      show String.mk (natToChars n) ≠ ""
      rw [hEq]
      intro h
      exact absurd (congrArg String.data h) (by simp)
  | negSucc n =>
      show String.mk ('-' :: natToChars (n + 1)) ≠ ""
      intro h
      exact absurd (congrArg String.data h) (by simp)

/-! ### Shared list lemmas for the Recent Activity Window -/

lemma insertTradeRow_eq_take {α : Type} (w : List α) (x : α) (h : w.length ≤ 10) :
    TD.insertTradeRow w x = (x :: w).take 10 := by
  unfold TD.insertTradeRow
  by_cases h2 : (x :: w).length > 10
  · simp only [if_pos h2]
    have h3 : (x :: w).length = 11 := by simp at h2 ⊢; omega
    rw [List.dropLast_eq_take, h3]
  · simp only [if_neg h2]
    rw [List.take_of_length_le (by omega)]

lemma take_append_take {α : Type} (a b : List α) (n : Nat) :
    (a ++ b.take n).take n = (a ++ b).take n := by
  rw [List.take_append_eq_append_take, List.take_append_eq_append_take, List.take_take]
  congr 2
  omega

lemma foldl_insertTradeRow {α : Type} (l : List α) :
    ∀ w : List α, w.length ≤ 10 →
      l.foldl TD.insertTradeRow w = (l.reverse ++ w).take 10 := by
  induction l with
  | nil =>
      intro w h
      simp [List.take_of_length_le h]
  | cons x l ih =>
      intro w h
      have hlen : (TD.insertTradeRow w x).length ≤ 10 := by
        rw [insertTradeRow_eq_take w x h]
        simp
      calc (x :: l).foldl TD.insertTradeRow w
          = l.foldl TD.insertTradeRow (TD.insertTradeRow w x) := rfl
        _ = (l.reverse ++ (x :: w).take 10).take 10 := by
              rw [ih _ hlen, insertTradeRow_eq_take w x h]
        _ = (l.reverse ++ (x :: w)).take 10 := take_append_take _ _ _
        _ = ((x :: l).reverse ++ w).take 10 := by simp

/-- Claim C2: for every sequence of insertions into the Recent Activity
Window (one trade row at a time, as `updateTradeHistory` performs them),
the window length never exceeds 10, and after inserting more than 10
records the window is exactly the last 10 inserted records, newest
first. -/
theorem recent_activity_window_last_ten {α : Type} (l : List α) :
    (l.foldl TD.insertTradeRow []).length ≤ 10 ∧
    (l.length > 10 → l.foldl TD.insertTradeRow [] = l.reverse.take 10) := by
  have h := foldl_insertTradeRow l [] (by simp)
  simp only [List.append_nil] at h
  constructor
  · rw [h]; simp
  · intro _; exact h

/-- Witness for C2 at a concrete 11-element insertion sequence. -/
theorem recent_activity_window_last_ten_witness :
    (List.range 11).length > 10 ∧
    (List.range 11).foldl TD.insertTradeRow [] = (List.range 11).reverse.take 10 :=
  ⟨by decide, (recent_activity_window_last_ten (List.range 11)).2 (by decide)⟩

/-- Claim C4 (evaluation at the failing input): a live-channel frame whose
payload is not parseable JSON makes the `onmessage` handler throw an
uncaught SyntaxError from `JSON.parse` — the handler has no try/catch, so
the message is not dropped-and-logged as the claim states. -/
theorem malformed_ws_message_throws_uncaught :
    TD.wsOnMessage menv0 (TD.WireMsg.malformed "not json") mainState0 =
      Except.error JsError.syntaxError := rfl

/-- Claim C1 (evaluation at the failing input): enable the auto theme
while the system prefers dark, then explicitly pick dark; when the system
preference later flips to light, the stale auto-theme listener re-applies
light, changing the applied theme although the last explicit call was
`switchTheme` with dark. -/
theorem stale_auto_listener_changes_applied_theme :
    (DS.switchTheme env0 "dark" (DS.switchTheme env0 "auto" ds0)).bodyTheme
        = some "dark" ∧
    (DS.systemPrefChange false
        (DS.switchTheme env0 "dark" (DS.switchTheme env0 "auto" ds0))).bodyTheme
        = some "light" := by
  exact ⟨rfl, rfl⟩

/-- Claim C9 (counterexample): a notification enqueued with a 2000 ms
time-to-live and dismissed at 500 ms still has its auto-removal task
pending after the dismissal (nothing cancels the timeout), and when that
task fires a second removal of the same notification is attempted — the
claim states the pending task is cancelled and no second removal is ever
attempted. -/
theorem dismissed_notification_second_removal :
    (TD.clickClose 0 (TD.elapseTo 500 (TD.showNotification 2000 notif0))).timeouts
        = [(0, 2000)] ∧
    (TD.elapseTo 2001 (TD.clickClose 0 (TD.elapseTo 500
        (TD.showNotification 2000 notif0)))).removalAttempts = [0, 0] := by
  exact ⟨rfl, rfl⟩

/-- Claim C9 as amended: a notification enqueued with time-to-live `ttl`
is absent from the active set once `ttl` has elapsed, and a dismissal
before expiry removes it immediately; but the pending auto-removal task is
not cancelled — it stays queued and, on firing, performs a second removal
of the same notification, which is a no-op on the already-detached element
(the notification remains absent). -/
theorem notification_expiry_and_dismiss (ttl td t : Nat)
    (h1 : td < ttl) (h2 : ttl ≤ t) :
    ((TD.elapseTo t (TD.showNotification ttl notif0)).active = [] ∧
     (TD.elapseTo t (TD.showNotification ttl notif0)).removalAttempts = [0]) ∧
    ((TD.clickClose 0 (TD.elapseTo td (TD.showNotification ttl notif0))).active = [] ∧
     (TD.clickClose 0 (TD.elapseTo td (TD.showNotification ttl notif0))).timeouts
        = [(0, ttl)] ∧
     (TD.elapseTo t (TD.clickClose 0 (TD.elapseTo td
         (TD.showNotification ttl notif0)))).active = [] ∧
     (TD.elapseTo t (TD.clickClose 0 (TD.elapseTo td
         (TD.showNotification ttl notif0)))).removalAttempts = [0, 0]) := by
  have hnotle : ¬ (ttl ≤ td) := by omega
  simp [TD.showNotification, TD.elapseTo, TD.clickClose, TD.removeNotif, notif0,
        h1, h2, hnotle]

/-- Witness for the amended C9 at the concrete scenario of the spec
(time-to-live 2000 ms, dismissal at 500 ms, check at 2001 ms). -/
theorem notification_expiry_and_dismiss_witness :
    (TD.elapseTo 2001 (TD.showNotification 2000 notif0)).active = [] ∧
    (TD.clickClose 0 (TD.elapseTo 500 (TD.showNotification 2000 notif0))).active = [] ∧
    (TD.elapseTo 2001 (TD.clickClose 0 (TD.elapseTo 500
        (TD.showNotification 2000 notif0)))).active = [] := by
  have h := notification_expiry_and_dismiss 2000 500 2001 (by decide) (by decide)
  exact ⟨h.1.1, h.2.1, h.2.2.2.1⟩

/-- Claim C8 (counterexample): through the switcher snapshot path
(`updateDashboardData` of the switcher file), a delivered price of 0 does
not overwrite the price cell — the truthiness guard skips it — so after
the update the cell does not hold the delivered value. -/
theorem switcher_snapshot_zero_not_applied :
    (DS.updateDashboardData env0
        { current_price := some 0, balance := some 0, bot_status := some "" }
        { ds0 with priceCell := some "$100.00" }).priceCell = some "$100.00" ∧
    (some "$100.00" : Option String) ≠ some (jsMoney 0) := by
  exact ⟨rfl, by decide⟩

/-- Claim C8 as amended: on the TradingDashboard paths (live-channel
events and the main.js poll), each delivered price, balance or status
value overwrites its scalar cell wholesale, whatever the value (including
0 and the empty string); on the switcher snapshot path, a field is applied
only when truthy — a price or balance of 0, or an empty status string,
leaves the cell unchanged — while a truthy value overwrites it
wholesale. -/
theorem scalar_cell_overwrite_semantics (env : MainEnv) (e : DSEnv)
    (s : MainState) (ds : DS) (n : Int) (st : String)
    (hp : env.priceElem = true) (hb : env.balanceElem = true)
    (hs : env.statusElem = true) :
    TD.updatePriceDisplay env (Json.num n) s
        = Except.ok { s with priceCell := some (jsMoney n) } ∧
    TD.updateBalanceDisplay env (Json.num n) s
        = Except.ok { s with balanceCell := some (jsMoney n) } ∧
    TD.updateBotStatus env (Json.str st) s
        = Except.ok { s with statusText := some st
                             statusClass := some ("bot-status status-" ++ st.toLower) } ∧
    ((DS.updateDashboardData e
        { current_price := some 0, balance := some 0, bot_status := some "" }
        ds).priceCell = ds.priceCell ∧
     (DS.updateDashboardData e
        { current_price := some 0, balance := some 0, bot_status := some "" }
        ds).balanceCell = ds.balanceCell ∧
     (DS.updateDashboardData e
        { current_price := some 0, balance := some 0, bot_status := some "" }
        ds).statusText = ds.statusText) ∧
    (n ≠ 0 → e.priceElem = true →
      (DS.updateDashboardData e
        { current_price := some n, balance := none, bot_status := none }
        ds).priceCell = some (jsMoney n)) := by
  refine ⟨?_, ?_, ?_, ?_, ?_⟩
  · simp [TD.updatePriceDisplay, hp]
  · simp [TD.updateBalanceDisplay, hb]
  · simp [TD.updateBotStatus, hs]
  · simp [DS.updateDashboardData]
  · intro hn he
    simp [DS.updateDashboardData, hn, he]

/-- Witness for the amended C8 at concrete inputs (delivered value 7 via
the main.js path and the switcher path). -/
theorem scalar_cell_overwrite_semantics_witness :
    TD.updatePriceDisplay menv0 (Json.num 7) mainState0
        = Except.ok { mainState0 with priceCell := some (jsMoney 7) } ∧
    (DS.updateDashboardData env0
        { current_price := some 7, balance := none, bot_status := none }
        ds0).priceCell = some (jsMoney 7) := by
  have h := scalar_cell_overwrite_semantics menv0 env0 mainState0 ds0 7 "Running"
    rfl rfl rfl
  exact ⟨h.1, h.2.2.2.2 (by decide) rfl⟩

/-! ### Storage and timer lemmas -/

lemma storageGet_storageSet (st : List (String × String)) (k v : String) :
    storageGet (storageSet st k v) k = some v := by
  induction st with
  | nil => simp [storageSet, storageGet, List.lookup]
  | cons kv rest ih =>
      by_cases h : kv.1 = k
      · simp [storageSet, h, storageGet, List.lookup]
      · have hb : (k == kv.1) = false := by
          simpa using fun hh => h hh.symm
        simpa [storageSet, h, storageGet, List.lookup, hb] using ih

lemma clearRefreshInterval_timers (s : DS) (h : goodTimers s) :
    (DS.clearRefreshInterval s).activeTimers = [] := by
  rcases h with hT | ⟨i, p, hT, hI⟩
  · unfold DS.clearRefreshInterval
    cases s.refreshIntervalId <;> simp [hT]
  · unfold DS.clearRefreshInterval
    rw [hI]
    simp [hT]

lemma clearRefreshInterval_storage (s : DS) :
    (DS.clearRefreshInterval s).storage = s.storage := by
  unfold DS.clearRefreshInterval
  cases s.refreshIntervalId <;> rfl

lemma setRefreshRate_post (e : DSEnv) (n : Int) (s : DS) (h : goodTimers s) :
    goodTimers (DS.setRefreshRate e n s) ∧
    (0 < n → (DS.setRefreshRate e n s).activeTimers.map Prod.snd = [n]) ∧
    (n ≤ 0 → (DS.setRefreshRate e n s).activeTimers = []) ∧
    storageGet (DS.setRefreshRate e n s).storage "dashboard-refresh-rate"
      = some (jsNumToString n) := by
  have hclear := clearRefreshInterval_timers s h
  by_cases hn : n > 0
  · refine ⟨Or.inr ⟨(DS.clearRefreshInterval s).nextTimerId, n, ?_, ?_⟩, ?_, ?_, ?_⟩
    · simp [DS.setRefreshRate, hn, hclear]
    · simp [DS.setRefreshRate, hn]
    · intro _; simp [DS.setRefreshRate, hn, hclear]
    · intro hle; omega
    · simp [DS.setRefreshRate, hn, storageGet_storageSet]
  · refine ⟨Or.inl ?_, ?_, ?_, ?_⟩
    · simp [DS.setRefreshRate, hn, hclear]
    · intro hlt; omega
    · intro _; simp [DS.setRefreshRate, hn, hclear]
    · simp [DS.setRefreshRate, hn, storageGet_storageSet]

lemma goodTimers_length (s : DS) (h : goodTimers s) :
    s.activeTimers.length ≤ 1 := by
  rcases h with hT | ⟨i, p, hT, _⟩ <;> simp [hT]

lemma runRefresh_aux (e : DSEnv) :
    ∀ (args : List Int) (s : DS), goodTimers s →
      goodTimers (args.foldl (fun s n => DS.setRefreshRate e n s) s) ∧
      (∀ last, args.getLast? = some last →
        ((0 < last →
            (args.foldl (fun s n => DS.setRefreshRate e n s) s).activeTimers.map
              Prod.snd = [last]) ∧
         (last ≤ 0 →
            (args.foldl (fun s n => DS.setRefreshRate e n s) s).activeTimers = []) ∧
         storageGet
            (args.foldl (fun s n => DS.setRefreshRate e n s) s).storage
            "dashboard-refresh-rate" = some (jsNumToString last))) := by
  intro args
  induction args with
  | nil =>
      intro s h
      exact ⟨h, by intro last h'; simp at h'⟩
  | cons a rest ih =>
      intro s h
      have hpost := setRefreshRate_post e a s h
      have hrec := ih (DS.setRefreshRate e a s) hpost.1
      refine ⟨hrec.1, ?_⟩
      intro last hlast
      cases rest with
      | nil =>
          simp at hlast
          subst hlast
          exact ⟨hpost.2.1, hpost.2.2.1, hpost.2.2.2⟩
      | cons b rest2 =>
          have : (a :: b :: rest2).getLast? = (b :: rest2).getLast? := by
            simp [List.getLast?_cons_cons]
          rw [this] at hlast
          exact hrec.2 last hlast

/-- Claim C3: for every sequence of `setRefreshRate` calls, at most one
refresh interval is ever live; after the last call there is exactly one
live timer, with period equal to the last argument, when that argument is
positive, and none when it is 0 (or negative); and the stringified raw
argument is persisted under the refresh-rate key on every call. -/
theorem setRefreshRate_single_active_timer (e : DSEnv) (args : List Int) :
    (runRefresh e args).activeTimers.length ≤ 1 ∧
    ∀ last, args.getLast? = some last →
      ((0 < last → (runRefresh e args).activeTimers.map Prod.snd = [last]) ∧
       (last ≤ 0 → (runRefresh e args).activeTimers = []) ∧
       storageGet (runRefresh e args).storage "dashboard-refresh-rate"
         = some (jsNumToString last)) := by
  have h := runRefresh_aux e args ds0 (Or.inl rfl)
  exact ⟨goodTimers_length _ h.1, h.2⟩

/-- Witness for C3 at the concrete call sequences 5, 0, 30 and 5, 0. -/
theorem setRefreshRate_single_active_timer_witness :
    (runRefresh env0 [5, 0, 30]).activeTimers.map Prod.snd = [30] ∧
    storageGet (runRefresh env0 [5, 0, 30]).storage "dashboard-refresh-rate"
      = some (jsNumToString 30) ∧
    (runRefresh env0 [5, 0]).activeTimers = [] := by
  have h1 := (setRefreshRate_single_active_timer env0 [5, 0, 30]).2 30 rfl
  have h2 := (setRefreshRate_single_active_timer env0 [5, 0]).2 0 rfl
  exact ⟨h1.1 (by decide), h1.2.2, h2.2.1 (by decide)⟩

/-! ### View-initialization frame lemmas and listener accounting -/

lemma core_fetchLog_set (s : DS) (F : List String) :
    ({ s with fetchLog := F } : DS).core = s.core := rfl

lemma core_updateDashboardData (e : DSEnv) (d : DashData) (s : DS) :
    (DS.updateDashboardData e d s).core = s.core := by
  unfold DS.updateDashboardData
  rcases d with ⟨p, b, st⟩
  cases p <;> cases b <;> cases st <;> dsimp only <;> split_ifs <;> rfl

lemma core_updateTradeHistory (e : DSEnv) (tr : List DSTrade) (s : DS) :
    (DS.updateTradeHistory e tr s).core = s.core := by
  unfold DS.updateTradeHistory
  split_ifs <;> rfl

lemma core_updateSettingsForm (e : DSEnv) (settings : List (String × String)) :
    ∀ s : DS, (DS.updateSettingsForm e settings s).core = s.core := by
  induction settings with
  | nil => intro s; rfl
  | cons kv rest ih =>
      intro s
      unfold DS.updateSettingsForm at ih ⊢
      simp only [List.foldl_cons]
      rw [ih]
      split_ifs <;> rfl

lemma core_initView (e : DSEnv) (v : String) (s : DS) :
    (DS.initView e v s).core = s.core := by
  unfold DS.initView
  split
  · rw [show DS.initDashboard e s
        = DS.updateDashboardData e e.dashData
            { s with fetchLog := s.fetchLog ++ ["/api/dashboard-data"] } from rfl]
    rw [core_updateDashboardData, core_fetchLog_set]
  · rw [show DS.initTradesView e s
        = DS.updateTradeHistory e e.tradeHistResp
            { s with fetchLog := s.fetchLog ++ ["/api/trade-history"] } from rfl]
    rw [core_updateTradeHistory, core_fetchLog_set]
  · rfl
  · rw [show DS.initSettingsView e s
        = DS.updateSettingsForm e e.settingsResp
            { s with fetchLog := s.fetchLog ++ ["/api/settings"] } from rfl]
    rw [core_updateSettingsForm, core_fetchLog_set]
  · rfl


lemma fetchLog_updateDashboardData (e : DSEnv) (d : DashData) (s : DS) :
    (DS.updateDashboardData e d s).fetchLog = s.fetchLog := by
  unfold DS.updateDashboardData
  rcases d with ⟨p, b, st⟩
  cases p <;> cases b <;> cases st <;> dsimp only <;> split_ifs <;> rfl

lemma fetchLog_updateTradeHistory (e : DSEnv) (tr : List DSTrade) (s : DS) :
    (DS.updateTradeHistory e tr s).fetchLog = s.fetchLog := by
  unfold DS.updateTradeHistory
  split_ifs <;> rfl

lemma fetchLog_updateSettingsForm (e : DSEnv) (settings : List (String × String)) :
    ∀ s : DS, (DS.updateSettingsForm e settings s).fetchLog = s.fetchLog := by
  induction settings with
  | nil => intro s; rfl
  | cons kv rest ih =>
      intro s
      unfold DS.updateSettingsForm at ih ⊢
      simp only [List.foldl_cons]
      rw [ih]
      split_ifs <;> rfl

lemma fetchLog_initView (e : DSEnv) (v : String) (s : DS) :
    (DS.initView e v s).fetchLog = s.fetchLog ++ DS.viewRequests v := by
  unfold DS.initView
  split
  · rw [show DS.initDashboard e s
        = DS.updateDashboardData e e.dashData
            { s with fetchLog := s.fetchLog ++ ["/api/dashboard-data"] } from rfl]
    rw [fetchLog_updateDashboardData]
    rfl
  · rw [show DS.initTradesView e s
        = DS.updateTradeHistory e e.tradeHistResp
            { s with fetchLog := s.fetchLog ++ ["/api/trade-history"] } from rfl]
    rw [fetchLog_updateTradeHistory]
    rfl
  · rfl
  · rw [show DS.initSettingsView e s
        = DS.updateSettingsForm e e.settingsResp
            { s with fetchLog := s.fetchLog ++ ["/api/settings"] } from rfl]
    rw [fetchLog_updateSettingsForm]
    rfl
  · next h1 h2 h3 h4 =>
      have hv : DS.viewRequests v = [] := by
        unfold DS.viewRequests
        split
        · exact absurd rfl h1
        · exact absurd rfl h2
        · exact absurd rfl h3
        · exact absurd rfl h4
        · rfl
      simp [hv]


lemma mediaListeners_applyThemeTimes (t : String) :
    ∀ (n : Nat) (s : DS),
      (DS.applyThemeTimes t n s).mediaListeners = s.mediaListeners := by
  intro n
  induction n with
  | zero => intro s; rfl
  | succ n ih => intro s; exact ih (DS.applyTheme t s)

lemma themeApplications_applyThemeTimes (t : String) :
    ∀ (n : Nat) (s : DS),
      (DS.applyThemeTimes t n s).themeApplications = s.themeApplications + n := by
  intro n
  induction n with
  | zero => intro s; rfl
  | succ n ih =>
      intro s
      have := ih (DS.applyTheme t s)
      rw [show DS.applyThemeTimes t (n + 1) s
            = DS.applyThemeTimes t n (DS.applyTheme t s) from rfl, this]
      show s.themeApplications + 1 + n = s.themeApplications + (n + 1)
      omega

lemma mediaListeners_initView (e : DSEnv) (v : String) (s : DS) :
    (DS.initView e v s).mediaListeners = s.mediaListeners :=
  congrArg CoreSt.mediaListeners (core_initView e v s)

lemma mediaListeners_clearRefreshInterval (s : DS) :
    (DS.clearRefreshInterval s).mediaListeners = s.mediaListeners := by
  unfold DS.clearRefreshInterval
  cases s.refreshIntervalId <;> rfl

lemma mediaListeners_op (e : DSEnv) (op : DSOp) (s : DS) :
    (DSOp.apply e s op).mediaListeners
      = s.mediaListeners +
        (match op with
         | .themeSwitch t => if t = "auto" then 1 else 0
         | .autoTheme => 1
         | _ => 0) := by
  cases op with
  | themeSwitch t =>
      by_cases h : t = "auto"
      · subst h
        show (DS.switchTheme e "auto" s).mediaListeners = s.mediaListeners + 1
        rfl
      · have h1 : (DS.switchTheme e t s).mediaListeners = s.mediaListeners := by
          unfold DS.switchTheme
          rw [if_neg h]
          rfl
        show (DS.switchTheme e t s).mediaListeners
          = s.mediaListeners + if t = "auto" then 1 else 0
        rw [h1, if_neg h]
        rfl
  | autoTheme => rfl
  | viewSwitch v =>
      show (DS.switchView e v s).mediaListeners = s.mediaListeners + 0
      unfold DS.switchView
      split_ifs <;> rw [mediaListeners_initView] <;> rfl
  | layoutSwitch l =>
      show (DS.switchLayout e l s).mediaListeners = s.mediaListeners + 0
      unfold DS.switchLayout
      split_ifs <;> rfl
  | refreshSet n =>
      show (DS.setRefreshRate e n s).mediaListeners = s.mediaListeners + 0
      unfold DS.setRefreshRate
      split_ifs <;> simp [mediaListeners_clearRefreshInterval]
  | sysChange m =>
      show (DS.systemPrefChange m s).mediaListeners = s.mediaListeners + 0
      unfold DS.systemPrefChange
      rw [mediaListeners_applyThemeTimes]
      rfl

lemma mediaListeners_runOps (e : DSEnv) :
    ∀ (ops : List DSOp) (s : DS),
      (runOps e ops s).mediaListeners = s.mediaListeners + autoActivations ops := by
  intro ops
  induction ops with
  | nil => intro s; simp [runOps, autoActivations]
  | cons op rest ih =>
      intro s
      show (runOps e rest (DSOp.apply e s op)).mediaListeners = _
      rw [ih, mediaListeners_op]
      have hA : autoActivations (op :: rest)
          = (match op with
             | .themeSwitch t => if t = "auto" then 1 else 0
             | .autoTheme => 1
             | _ => 0) + autoActivations rest := rfl
      rw [hA]
      omega

/-- Claim C10: every activation of the auto theme registers one more
system-preference change listener, none is ever removed by any switcher
operation, and a single system-preference change event then runs
`applyTheme` once per registered listener — after k activations the
resolved theme is re-applied k times. -/
theorem auto_listener_accumulation (e : DSEnv) (ops : List DSOp) (s : DS) (m : Bool) :
    (runOps e ops s).mediaListeners = s.mediaListeners + autoActivations ops ∧
    (DS.systemPrefChange m (runOps e ops s)).themeApplications
      = (runOps e ops s).themeApplications + (runOps e ops s).mediaListeners := by
  refine ⟨mediaListeners_runOps e ops s, ?_⟩
  unfold DS.systemPrefChange
  rw [themeApplications_applyThemeTimes]



lemma activeContainers_initView (e : DSEnv) (v : String) (s : DS) :
    (DS.initView e v s).activeContainers = s.activeContainers :=
  congrArg CoreSt.activeContainers (core_initView e v s)

lemma currentView_initView (e : DSEnv) (v : String) (s : DS) :
    (DS.initView e v s).currentView = s.currentView :=
  congrArg CoreSt.currentView (core_initView e v s)

lemma storage_initView (e : DSEnv) (v : String) (s : DS) :
    (DS.initView e v s).storage = s.storage :=
  congrArg CoreSt.storage (core_initView e v s)

/-- Claim C7 (counterexample): with the dashboard view active,
`switchView` on a view whose container does not exist is not a no-op — it
deactivates the previously active container, records the unknown view as
current, and persists it. -/
theorem switchView_missing_target_mutates_state :
    (DS.switchView env0 "dashboard" ds0).activeContainers = ["dashboard"] ∧
    (DS.switchView env0 "missing" (DS.switchView env0 "dashboard" ds0)).activeContainers
      = [] ∧
    (DS.switchView env0 "missing" (DS.switchView env0 "dashboard" ds0)).currentView
      = "missing" ∧
    storageGet (DS.switchView env0 "missing"
        (DS.switchView env0 "dashboard" ds0)).storage "dashboard-view"
      = some "missing" := by
  refine ⟨rfl, rfl, rfl, rfl⟩

/-- Claim C7 as amended: when the target container does not exist,
`switchView` still removes the active class from every container (leaving
none active), still records and persists the requested view, and still
runs the view initialization (issuing its data request when the name is a
recognized view); only the activation of a target container is
skipped. -/
theorem switchView_missing_target_effects (e : DSEnv) (v : String) (s : DS)
    (h : v ∉ e.containers) :
    (DS.switchView e v s).activeContainers = [] ∧
    (DS.switchView e v s).currentView = v ∧
    storageGet (DS.switchView e v s).storage "dashboard-view" = some v ∧
    (DS.switchView e v s).fetchLog = s.fetchLog ++ DS.viewRequests v := by
  unfold DS.switchView
  dsimp only
  rw [if_neg h]
  refine ⟨?_, ?_, ?_, ?_⟩
  · rw [activeContainers_initView]
  · rw [currentView_initView]
  · rw [storage_initView]
    exact storageGet_storageSet _ _ _
  · rw [fetchLog_initView]

/-- Witness for the amended C7 at a concrete unknown view name. -/
theorem switchView_missing_target_effects_witness :
    (DS.switchView env0 "missing" ds0).activeContainers = [] ∧
    (DS.switchView env0 "missing" ds0).currentView = "missing" ∧
    storageGet (DS.switchView env0 "missing" ds0).storage "dashboard-view"
      = some "missing" ∧
    (DS.switchView env0 "missing" ds0).fetchLog
      = ds0.fetchLog ++ DS.viewRequests "missing" :=
  switchView_missing_target_effects env0 "missing" ds0 (by decide)




lemma applied_initView (e : DSEnv) (v : String) (s : DS) :
    (DS.initView e v s).applied = s.applied := by
  have h1 : (DS.initView e v s).applied = coreApplied (DS.initView e v s).core := rfl
  rw [h1, core_initView e v s]
  rfl

lemma storage_switchView (e : DSEnv) (v : String) (s : DS) :
    (DS.switchView e v s).storage = storageSet s.storage "dashboard-view" v := by
  unfold DS.switchView
  dsimp only
  rw [storage_initView]
  split_ifs <;> rfl

lemma storage_applyLayout (e : DSEnv) (l : String) (s : DS) :
    (DS.applyLayout e l s).storage = s.storage := by
  unfold DS.applyLayout
  split_ifs <;> rfl

lemma applied_switchView (e : DSEnv) (v : String) (s : DS) :
    (DS.switchView e v s).applied =
      { bodyTheme := s.bodyTheme, cssVars := s.cssVars
        currentTheme := s.currentTheme
        activeContainers := if v ∈ e.containers then classListAdd [] v else []
        currentView := v, layoutClasses := s.layoutClasses
        activeTimers := s.activeTimers, mediaListeners := s.mediaListeners } := by
  unfold DS.switchView
  dsimp only
  rw [applied_initView]
  split_ifs <;> rfl

/-- Claim C5 (counterexample): persisting the theme preference auto and
reloading applies the literal string auto (light tokens, no
system-preference subscription), while calling `switchTheme` with auto
directly resolves the system preference (dark tokens here) and subscribes
a listener — the round-trip does not reproduce the applied state for the
auto theme. -/
theorem auto_theme_roundtrip_mismatch :
    (DS.loadSavedSettings env0 { ds0 with storage := [("dashboard-theme", "auto")] }).applied
      ≠ (DS.switchTheme env0 "auto" ds0).applied := by
  decide

/-- Claim C5 as amended: persisting a preference and reloading through
`loadSavedSettings` reproduces the applied state of the direct switch
operation for the theme values light and dark, for every non-empty view,
for every non-empty layout, and for every refresh rate (whose stored
decimal string is never empty) — but not for the theme value auto, where
the reload applies the literal stored string instead of resolving the
system preference and subscribes no listener, and not for an empty stored
view or layout string, which the reload skips as falsy while the direct
switch operation still mutates state. -/
theorem preference_roundtrip_amended (e : DSEnv) (t v l : String) (r : Int)
    (ht : t = "light" ∨ t = "dark") (hv : v ≠ "") (hl : l ≠ "") :
    (DS.loadSavedSettings e { ds0 with storage := [("dashboard-theme", t)] }).applied
      = (DS.switchTheme e t ds0).applied ∧
    (DS.loadSavedSettings e { ds0 with storage := [("dashboard-view", v)] }).applied
      = (DS.switchView e v ds0).applied ∧
    (DS.loadSavedSettings e { ds0 with storage := [("dashboard-layout", l)] }).applied
      = (DS.switchLayout e l ds0).applied ∧
    (DS.loadSavedSettings e
        { ds0 with storage := [("dashboard-refresh-rate", jsNumToString r)] }).applied
      = (DS.setRefreshRate e r ds0).applied := by
  refine ⟨?_, ?_, ?_, ?_⟩
  · rcases ht with h | h <;> subst h <;> rfl
  · unfold DS.loadSavedSettings
    dsimp only
    rw [show storageGet [("dashboard-view", v)] "dashboard-theme" = none from rfl]
    dsimp only
    rw [show storageGet [("dashboard-view", v)] "dashboard-view" = some v from rfl]
    dsimp only
    rw [if_neg hv]
    rw [storage_switchView]
    rw [show storageSet [("dashboard-view", v)] "dashboard-view" v
          = [("dashboard-view", v)] from rfl]
    rw [show storageGet [("dashboard-view", v)] "dashboard-layout" = none from rfl]
    dsimp only
    rw [storage_switchView]
    rw [show storageSet [("dashboard-view", v)] "dashboard-view" v
          = [("dashboard-view", v)] from rfl]
    rw [show storageGet [("dashboard-view", v)] "dashboard-refresh-rate" = none from rfl]
    dsimp only
    rw [applied_switchView, applied_switchView]
  · unfold DS.loadSavedSettings
    dsimp only
    rw [show storageGet [("dashboard-layout", l)] "dashboard-theme" = none from rfl]
    dsimp only
    rw [show storageGet [("dashboard-layout", l)] "dashboard-view" = none from rfl]
    dsimp only
    rw [show storageGet [("dashboard-layout", l)] "dashboard-layout" = some l from rfl]
    dsimp only
    rw [if_neg hl]
    rw [storage_applyLayout]
    rw [show storageGet [("dashboard-layout", l)] "dashboard-refresh-rate" = none from rfl]
    dsimp only
    unfold DS.applyLayout DS.switchLayout
    dsimp only
    split_ifs <;> rfl
  · unfold DS.loadSavedSettings
    dsimp only
    rw [show storageGet [("dashboard-refresh-rate", jsNumToString r)] "dashboard-theme"
          = none from rfl]
    dsimp only
    rw [show storageGet [("dashboard-refresh-rate", jsNumToString r)] "dashboard-view"
          = none from rfl]
    dsimp only
    rw [show storageGet [("dashboard-refresh-rate", jsNumToString r)] "dashboard-layout"
          = none from rfl]
    dsimp only
    rw [show storageGet [("dashboard-refresh-rate", jsNumToString r)]
          "dashboard-refresh-rate" = some (jsNumToString r) from rfl]
    dsimp only
    rw [if_neg (jsNumToString_ne_empty r)]
    rw [jsParseInt_jsNumToString]
    unfold DS.setRefreshRate DS.clearRefreshInterval
    dsimp only
    split_ifs <;> rfl

/-- Witness for the amended C5 at concrete preferences (dark theme, trades
view, compact layout, 30-second refresh). -/
theorem preference_roundtrip_amended_witness :
    (DS.loadSavedSettings env0 { ds0 with storage := [("dashboard-theme", "dark")] }).applied
      = (DS.switchTheme env0 "dark" ds0).applied ∧
    (DS.loadSavedSettings env0 { ds0 with storage := [("dashboard-view", "trades")] }).applied
      = (DS.switchView env0 "trades" ds0).applied ∧
    (DS.loadSavedSettings env0 { ds0 with storage := [("dashboard-layout", "compact")] }).applied
      = (DS.switchLayout env0 "compact" ds0).applied ∧
    (DS.loadSavedSettings env0
        { ds0 with storage := [("dashboard-refresh-rate", jsNumToString 30)] }).applied
      = (DS.setRefreshRate env0 30 ds0).applied :=
  preference_roundtrip_amended env0 "dark" "trades" "compact" 30 (Or.inr rfl)
    (by decide) (by decide)

/-! ### Idempotence of the view switch -/

lemma storageSet_idem (st : List (String × String)) (k v : String) :
    storageSet (storageSet st k v) k v = storageSet st k v := by
  induction st with
  | nil => simp [storageSet]
  | cons kv rest ih =>
      by_cases h : kv.1 = k
      · simp [storageSet, h]
      · simp [storageSet, h, ih]

lemma storageGet_storageSet_ne (st : List (String × String)) (k k2 v : String)
    (h : k2 ≠ k) :
    storageGet (storageSet st k v) k2 = storageGet st k2 := by
  induction st with
  | nil =>
      have hb : (k2 == k) = false := by simpa using h
      simp [storageSet, storageGet, List.lookup, hb]
  | cons kv rest ih =>
      by_cases hk : kv.1 = k
      · have hb : (k2 == k) = false := by simpa using h
        have hb2 : (k2 == kv.1) = false := by
          subst hk
          exact hb
        simp [storageSet, hk, storageGet, List.lookup, hb, hb2]
      · simp only [storageSet, if_neg hk]
        unfold storageGet at ih ⊢
        simp only [List.lookup]
        cases hc : k2 == kv.1 <;> simp [ih]

lemma storageSet_noop (st : List (String × String)) (k v : String)
    (h : storageGet st k = some v) : storageSet st k v = st := by
  induction st with
  | nil => simp [storageGet, List.lookup] at h
  | cons kv rest ih =>
      by_cases hk : kv.1 = k
      · have hb : (k == kv.1) = true := by simpa using hk.symm
        unfold storageGet at h
        simp only [List.lookup, hb, if_true] at h
        have hv : kv.2 = v := by simpa using h
        simp only [storageSet, if_pos hk, List.cons.injEq]
        exact ⟨by rw [Prod.ext_iff]; exact ⟨hk.symm, hv.symm⟩, trivial⟩
      · have hb : (k == kv.1) = false := by
          simpa using fun hh => hk hh.symm
        unfold storageGet at h ih
        simp only [List.lookup, hb] at h
        simp [storageSet, hk, ih h]


lemma formApply_cons (e : DSEnv) (kv : String × String)
    (l : List (String × String)) (f : List (String × String)) :
    formApply e (kv :: l) f
      = formApply e l
          (if kv.1 ∈ e.settingsInputs then storageSet f kv.1 kv.2 else f) := rfl

lemma formApply_get_frame (e : DSEnv) (k : String) :
    ∀ (l : List (String × String)) (f : List (String × String)),
      k ∉ l.map Prod.fst →
      storageGet (formApply e l f) k = storageGet f k := by
  intro l
  induction l with
  | nil => intro f _; rfl
  | cons kv rest ih =>
      intro f hk
      simp only [List.map_cons, List.mem_cons, not_or] at hk
      rw [formApply_cons]
      rw [ih _ hk.2]
      split_ifs with h
      · exact storageGet_storageSet_ne f kv.1 k kv.2 hk.1
      · rfl

lemma formApply_get_mem (e : DSEnv) :
    ∀ (l : List (String × String)) (f : List (String × String)),
      (l.map Prod.fst).Nodup →
      ∀ kv ∈ l, kv.1 ∈ e.settingsInputs →
        storageGet (formApply e l f) kv.1 = some kv.2 := by
  intro l
  induction l with
  | nil => intro f _ kv hkv; exact absurd hkv (List.not_mem_nil kv)
  | cons hd rest ih =>
      intro f hnd kv hkv hin
      simp only [List.map_cons, List.nodup_cons] at hnd
      rcases List.mem_cons.mp hkv with hEq | hmem
      · subst hEq
        rw [formApply_cons, if_pos hin]
        rw [formApply_get_frame e kv.1 rest _ hnd.1]
        exact storageGet_storageSet f kv.1 kv.2
      · rw [formApply_cons]
        exact ih _ hnd.2 kv hmem hin

lemma formApply_absorb (e : DSEnv) :
    ∀ (l : List (String × String)) (f : List (String × String)),
      (∀ kv ∈ l, kv.1 ∈ e.settingsInputs → storageGet f kv.1 = some kv.2) →
      formApply e l f = f := by
  intro l
  induction l with
  | nil => intro f _; rfl
  | cons hd rest ih =>
      intro f hall
      rw [formApply_cons]
      split_ifs with h
      · rw [storageSet_noop f hd.1 hd.2 (hall hd (List.mem_cons_self hd rest) h)]
        exact ih f (fun kv hkv hin => hall kv (List.mem_cons_of_mem hd hkv) hin)
      · exact ih f (fun kv hkv hin => hall kv (List.mem_cons_of_mem hd hkv) hin)

lemma formApply_idem (e : DSEnv) (l : List (String × String))
    (hnd : (l.map Prod.fst).Nodup) (f : List (String × String)) :
    formApply e l (formApply e l f) = formApply e l f :=
  formApply_absorb e l (formApply e l f)
    (fun kv hkv hin => formApply_get_mem e l f hnd kv hkv hin)


set_option maxHeartbeats 1000000 in
lemma updateSettingsForm_eq (e : DSEnv) (l : List (String × String)) :
    ∀ s : DS, DS.updateSettingsForm e l s
      = { s with settingsForm := formApply e l s.settingsForm } := by
  induction l with
  | nil => intro s; rfl
  | cons kv rest ih =>
      intro s
      have hstep : DS.updateSettingsForm e (kv :: rest) s
          = DS.updateSettingsForm e rest
              (if kv.1 ∈ e.settingsInputs
               then { s with settingsForm := storageSet s.settingsForm kv.1 kv.2 }
               else s) := rfl
      rw [hstep, formApply_cons]
      split_ifs with h
      · rw [ih]
      · rw [ih]

lemma updateDashboardData_eq (e : DSEnv) (d : DashData) (s : DS) :
    DS.updateDashboardData e d s
      = { s with priceCell := priceCellVal e d s.priceCell
                 balanceCell := balanceCellVal e d s.balanceCell
                 statusText := statusTextVal e d s.statusText
                 statusClass := statusClassVal e d s.statusClass } := by
  unfold DS.updateDashboardData priceCellVal balanceCellVal statusTextVal statusClassVal
  rcases d with ⟨p, b, st⟩
  cases p <;> cases b <;> cases st <;> dsimp only <;> split_ifs <;> rfl

lemma priceCellVal_idem (e : DSEnv) (d : DashData) (c : Option String) :
    priceCellVal e d (priceCellVal e d c) = priceCellVal e d c := by
  unfold priceCellVal
  rcases d with ⟨p, b, st⟩
  cases p <;> dsimp only <;> split_ifs <;> rfl

lemma balanceCellVal_idem (e : DSEnv) (d : DashData) (c : Option String) :
    balanceCellVal e d (balanceCellVal e d c) = balanceCellVal e d c := by
  unfold balanceCellVal
  rcases d with ⟨p, b, st⟩
  cases b <;> dsimp only <;> split_ifs <;> rfl

lemma statusTextVal_idem (e : DSEnv) (d : DashData) (c : Option String) :
    statusTextVal e d (statusTextVal e d c) = statusTextVal e d c := by
  unfold statusTextVal
  rcases d with ⟨p, b, st⟩
  cases st <;> dsimp only <;> split_ifs <;> rfl

lemma statusClassVal_idem (e : DSEnv) (d : DashData) (c : Option String) :
    statusClassVal e d (statusClassVal e d c) = statusClassVal e d c := by
  unfold statusClassVal
  rcases d with ⟨p, b, st⟩
  cases st <;> dsimp only <;> split_ifs <;> rfl

lemma updateDashboardData_stable (e : DSEnv) (d : DashData) (s : DS)
    (F : List String) :
    DS.updateDashboardData e d { DS.updateDashboardData e d s with fetchLog := F }
      = { DS.updateDashboardData e d s with fetchLog := F } := by
  simp only [updateDashboardData_eq]
  rw [priceCellVal_idem, balanceCellVal_idem, statusTextVal_idem, statusClassVal_idem]

set_option maxHeartbeats 1000000 in
lemma updateTradeHistory_stable (e : DSEnv) (tr : List DSTrade) (s : DS)
    (F : List String) :
    DS.updateTradeHistory e tr { DS.updateTradeHistory e tr s with fetchLog := F }
      = { DS.updateTradeHistory e tr s with fetchLog := F } := by
  unfold DS.updateTradeHistory
  split_ifs <;> rfl

set_option maxHeartbeats 1000000 in
lemma updateSettingsForm_stable (e : DSEnv) (s : DS) (F : List String)
    (hnd : (e.settingsResp.map Prod.fst).Nodup) :
    DS.updateSettingsForm e e.settingsResp
        { DS.updateSettingsForm e e.settingsResp s with fetchLog := F }
      = { DS.updateSettingsForm e e.settingsResp s with fetchLog := F } := by
  rw [updateSettingsForm_eq, updateSettingsForm_eq]
  dsimp only
  rw [formApply_idem e e.settingsResp hnd]

set_option maxHeartbeats 1000000 in
lemma initView_idem (e : DSEnv) (v : String) (s : DS)
    (hnd : (e.settingsResp.map Prod.fst).Nodup) :
    DS.initView e v (DS.initView e v s)
      = { DS.initView e v s with
          fetchLog := (DS.initView e v s).fetchLog ++ DS.viewRequests v } := by
  unfold DS.initView
  split
  · exact updateDashboardData_stable e e.dashData
      { s with fetchLog := s.fetchLog ++ ["/api/dashboard-data"] } _
  · exact updateTradeHistory_stable e e.tradeHistResp
      { s with fetchLog := s.fetchLog ++ ["/api/trade-history"] } _
  · rfl
  · exact updateSettingsForm_stable e
      { s with fetchLog := s.fetchLog ++ ["/api/settings"] } _ hnd
  · next h1 h2 h3 h4 =>
      have hv : DS.viewRequests v = [] := by
        unfold DS.viewRequests
        split
        · exact absurd rfl h1
        · exact absurd rfl h2
        · exact absurd rfl h3
        · exact absurd rfl h4
        · rfl
      rw [hv]
      simp


lemma viewSwitcherActive_initView (e : DSEnv) (v : String) (s : DS) :
    (DS.initView e v s).viewSwitcherActive = s.viewSwitcherActive :=
  congrArg CoreSt.viewSwitcherActive (core_initView e v s)

lemma activeContainers_switchView (e : DSEnv) (v : String) (s : DS) :
    (DS.switchView e v s).activeContainers
      = if v ∈ e.containers then classListAdd [] v else [] := by
  unfold DS.switchView
  dsimp only
  rw [activeContainers_initView]
  split_ifs <;> rfl

lemma viewSwitcherActive_switchView (e : DSEnv) (v : String) (s : DS) :
    (DS.switchView e v s).viewSwitcherActive
      = if v ∈ e.viewButtons then some v else none := by
  unfold DS.switchView
  dsimp only
  rw [viewSwitcherActive_initView]

lemma currentView_switchView (e : DSEnv) (v : String) (s : DS) :
    (DS.switchView e v s).currentView = v := by
  unfold DS.switchView
  dsimp only
  rw [currentView_initView]

lemma switchView_twice_collapse (e : DSEnv) (v : String) (s : DS) :
    DS.switchView e v (DS.switchView e v s)
      = DS.initView e v (DS.switchView e v s) := by
  have hAC := activeContainers_switchView e v s
  have hVS := viewSwitcherActive_switchView e v s
  have hCV := currentView_switchView e v s
  have hST : storageSet (DS.switchView e v s).storage "dashboard-view" v
      = (DS.switchView e v s).storage := by
    rw [storage_switchView]
    exact storageSet_idem s.storage "dashboard-view" v
  generalize hS : DS.switchView e v s = S1 at hAC hVS hCV hST ⊢
  conv_lhs => unfold DS.switchView
  dsimp only
  refine congrArg (DS.initView e v) ?_
  split_ifs with h1 h2 h2
  · rw [hST]
    rw [show classListAdd [] v = S1.activeContainers from by rw [hAC, if_pos h1]]
    rw [show (some v : Option String) = S1.viewSwitcherActive from by
          rw [hVS, if_pos h2]]
    rw [show v = S1.currentView from hCV.symm]
  · rw [hST]
    rw [show classListAdd [] v = S1.activeContainers from by rw [hAC, if_pos h1]]
    rw [show (none : Option String) = S1.viewSwitcherActive from by
          rw [hVS, if_neg h2]]
    rw [show v = S1.currentView from hCV.symm]
  · rw [hST]
    rw [show ([] : List String) = S1.activeContainers from by rw [hAC, if_neg h1]]
    rw [show (some v : Option String) = S1.viewSwitcherActive from by
          rw [hVS, if_pos h2]]
    rw [show v = S1.currentView from hCV.symm]
  · rw [hST]
    rw [show ([] : List String) = S1.activeContainers from by rw [hAC, if_neg h1]]
    rw [show (none : Option String) = S1.viewSwitcherActive from by
          rw [hVS, if_neg h2]]
    rw [show v = S1.currentView from hCV.symm]


/-- Claim C6 (counterexample): calling `switchView` twice with the same
view does not leave the state identical to one call — the second call
issues the data-load request for the view again, so the request log grows
from one entry to two. -/
theorem switchView_twice_duplicates_fetch :
    (DS.switchView env0 "dashboard" ds0).fetchLog = ["/api/dashboard-data"] ∧
    (DS.switchView env0 "dashboard" (DS.switchView env0 "dashboard" ds0)).fetchLog
      = ["/api/dashboard-data", "/api/dashboard-data"] := ⟨rfl, rfl⟩

/-- Claim C6 as amended: calling `switchView` with the same view twice
leaves every piece of state identical to one call except the request log —
the second call re-runs the view initialization and issues the same
data-load request again.  (The settings response is a parsed JSON object,
so its keys are distinct, which the hypothesis records.) -/
theorem switchView_twice_state_plus_fetch (e : DSEnv) (v : String) (s : DS)
    (hnd : (e.settingsResp.map Prod.fst).Nodup) :
    DS.switchView e v (DS.switchView e v s)
      = { DS.switchView e v s with
          fetchLog := (DS.switchView e v s).fetchLog ++ DS.viewRequests v } := by
  rw [switchView_twice_collapse]
  exact initView_idem e v _ hnd

/-- Witness for the amended C6 at the dashboard view. -/
theorem switchView_twice_state_plus_fetch_witness :
    DS.switchView env0 "dashboard" (DS.switchView env0 "dashboard" ds0)
      = { DS.switchView env0 "dashboard" ds0 with
          fetchLog := (DS.switchView env0 "dashboard" ds0).fetchLog
            ++ DS.viewRequests "dashboard" } :=
  switchView_twice_state_plus_fetch env0 "dashboard" ds0 (by decide)


end TradingBot
